import Mathlib

/-
Verification of the startup and shutdown orchestrator in cmd/service.go
together with the configuration fragment that declares Config, PortConfig
and DefaultConfig.  The Go code is embedded shallowly: external
collaborators (host identity, log destination, statsite connector,
subsystem startup, join reachability, registration calls, the signal
handler) are supplied as an explicit environment record, and one run of
ServiceCommand.Run is a pure function from that environment to an exit
code together with the ordered list of observable effects (the trace).
Deferred calls in Go run in last-in first-out order on every return path
that was reached after they were registered; the embedding appends the
corresponding shutdown events, in that execution order, to each such
return path.
-/

/-- Subsystems whose handles the orchestrator owns: the core agent handle,
the clustering RPC server and the HTTP server. -/
inductive Subsys
  | agent
  | rpc
  | http
deriving DecidableEq, Repr

/-- Port record from the configuration fragment.  HTTP and Server are the
two fields declared in the fragment; DNS, RPC, SerfLan and SerfWan are
referenced by the banner code in service.go with their declarations
outside the fragment, and default to the Go zero value. -/
structure PortConfig where
  HTTP : Int := 0
  Server : Int := 0
  DNS : Int := 0
  RPC : Int := 0
  SerfLan : Int := 0
  SerfWan : Int := 0
deriving DecidableEq, Repr

/-- Service descriptor: only the Name field is consulted by this
fragment, through the registration error message. -/
structure ServiceDef where
  Name : String
deriving DecidableEq, Repr

/-- Check descriptor: only the Name field is consulted by this
fragment, through the registration error message. -/
structure CheckDef where
  Name : String
deriving DecidableEq, Repr

/-- Agent configuration.  LogLevel, NodeName, BindAddr, Ports, StartJoin,
Revision, Version and VersionPrerelease are declared in the configuration
fragment; the remaining fields are referenced by service.go with their
declarations outside the fragment and default to Go zero values. -/
structure Config where
  LogLevel : String := ""
  NodeName : String := ""
  BindAddr : String := ""
  Ports : PortConfig := {}
  StartJoin : List String := []
  Revision : String := ""
  Version : String := ""
  VersionPrerelease : String := ""
  StatsiteAddr : String := ""
  Services : List ServiceDef := []
  Checks : List CheckDef := []
  Datacenter : String := ""
  ClientAddr : String := ""
  AdvertiseAddr : String := ""
  EncryptKey : String := ""
  Server : Bool := false
  Bootstrap : Bool := false
  VerifyOutgoing : Bool := false
  VerifyIncoming : Bool := false
deriving DecidableEq, Repr

/-- Embedding of DefaultConfig: the composite literal sets LogLevel,
BindAddr and the HTTP and Server ports; every other field takes the Go
zero value. -/
def DefaultConfig : Config :=
  { LogLevel := "INFO"
    BindAddr := "0.0.0.0"
    Ports := { HTTP := 8500, Server := 8300 } }

/-- Build metadata carried by the command value and stamped onto the
resolved configuration. -/
structure ServiceCommand where
  Revision : String := ""
  Version : String := ""
  VersionPrerelease : String := ""
deriving DecidableEq, Repr

/-- Flag destination record cmdConfig filled by the registered flags. -/
structure CmdConfig where
  LogLevel : String := ""
  NodeName : String := ""
  BindAddr : String := ""
deriving DecidableEq, Repr

/-- Model of the flag set registered in readConfig: the three string
flags log-level, node and bind, each parsed from the argument list as a
dash-prefixed name followed by its value; any other argument is a parse
error.  This models the subset of the Go flag syntax the fragment relies
on. -/
def parseFlags : List String → CmdConfig → Option CmdConfig
  | [], acc => some acc
  | "-log-level" :: v :: rest, acc => parseFlags rest { acc with LogLevel := v }
  | "-node" :: v :: rest, acc => parseFlags rest { acc with NodeName := v }
  | "-bind" :: v :: rest, acc => parseFlags rest { acc with BindAddr := v }
  | _ :: _, _ => none

/-- Observable effects of one run, in order: operator facing output,
installation of the global metrics sink (recording whether the fan-out
path was built and whether hostname tagging stayed enabled), subsystem
starts, join attempts, registration calls, the sync announcement, the
log gate release, and shutdown calls.  A shutdown event carries the
error outcome reported by that shutdown call; the orchestrator ignores
it, so it never influences control flow. -/
inductive Event
  | uiError (msg : String)
  | uiOutput (msg : String)
  | uiInfo (msg : String)
  | newGlobal (fanout : Bool) (enableHostname : Bool)
  | subsysStart (s : Subsys)
  | joinAttempt (addr : String)
  | addService (name : String)
  | addCheck (name : String)
  | startSync
  | gateFlush
  | shutdown (s : Subsys) (reportsError : Bool)
deriving DecidableEq, Repr

/-- Outcome of setupAgent chosen by the environment: either the agent is
up, with booleans recording whether the RPC and HTTP handles are
non-nil, or startup failed after having started the listed subsystems in
acquisition order. -/
inductive SetupOutcome
  | ok (rpc : Bool) (http : Bool)
  | fail (started : List Subsys)
deriving DecidableEq, Repr

/-- Handles recorded on the command value after a successful setupAgent:
whether rpcServer and httpServer are non-nil.  The agent handle itself
is always non-nil on success. -/
structure AgentHandles where
  rpc : Bool
  http : Bool
deriving DecidableEq, Repr

/-- Outcomes of the external collaborators for one run: host identity
lookup, scheduler width, whether the log destination opened, the
statsite connector, subsystem startup, address reachability for join,
the two registration calls, the error reports of the shutdown calls and
the value the signal handler eventually returns. -/
structure Env where
  hostname : Except String String
  gomaxprocs : Nat
  logWriterOk : Bool
  statsite : String → Option String
  setup : SetupOutcome
  reachable : String → Bool
  addService : String → Option String
  addCheck : String → Option String
  shutdownErr : Subsys → Bool
  signalsExit : Int

/-- Embedding of readConfig from service.go.  Ui error output is
returned as events.  The source keeps the whole merge block commented
out (lines 159 to 170), so the parsed flag values in cmdConfig are
dropped and the snapshot is built from DefaultConfig alone; the node
name falls back to the host identity and the build metadata is stamped
last. -/
def readConfig (c : ServiceCommand) (hostname : Except String String)
    (args : List String) : Option Config × List Event :=
  match parseFlags args {} with
  | none => (none, [])
  | some _cmdConfig =>
    let config := DefaultConfig
    if config.NodeName = "" then
      match hostname with
      | Except.error e =>
          (none, [Event.uiError ("Error determining hostname: " ++ e)])
      | Except.ok h =>
          (some { config with
                    NodeName := h
                    Revision := c.Revision
                    Version := c.Version
                    VersionPrerelease := c.VersionPrerelease }, [])
    else
      (some { config with
                Revision := c.Revision
                Version := c.Version
                VersionPrerelease := c.VersionPrerelease }, [])

/-- Warning emitted when only one logical execution unit is configured. -/
def warnEvents (env : Env) : List Event :=
  if env.gomaxprocs = 1 then
    [Event.uiError "WARNING: It is highly recommended to set GOMAXPROCS higher than 1"]
  else []

/-- Modelled from the spec: startupJoin is called by Run but its body is
not under src.  Given a non-empty start-join list it attempts every
listed address through the clustering subsystem; zero reachable
addresses is an error, at least one reachable address is success.  An
empty list means no attempt is made and no error is returned. -/
def startupJoin (reachable : String → Bool) (config : Config) :
    Option String × List Event :=
  if config.StartJoin = [] then (none, [])
  else
    if (config.StartJoin.filter reachable).length = 0 then
      (some "agent: could not join any of the specified addresses",
        config.StartJoin.map Event.joinAttempt)
    else
      (none, config.StartJoin.map Event.joinAttempt)

/-- Embedding of the service registration loop of Run: each descriptor
is passed to AddService in order; the first error stops the loop,
reporting a message that names the failing service, and returns its
name. -/
def registerServices (f : String → Option String) :
    List ServiceDef → Option String × List Event
  | [] => (none, [])
  | s :: rest =>
    match f s.Name with
    | some err =>
        (some s.Name,
          [Event.addService s.Name,
           Event.uiError ("Failed to register service \x27" ++ s.Name ++ "\x27: " ++ err)])
    | none =>
        ((registerServices f rest).1,
          Event.addService s.Name :: (registerServices f rest).2)

/-- Embedding of the check registration loop of Run: symmetric to the
service loop, naming the failing check in the report. -/
def registerChecks (f : String → Option String) :
    List CheckDef → Option String × List Event
  | [] => (none, [])
  | c :: rest =>
    match f c.Name with
    | some err =>
        (some c.Name,
          [Event.addCheck c.Name,
           Event.uiError ("Failed to register check \x27" ++ c.Name ++ "\x27: " ++ err ++ " " ++ c.Name)])
    | none =>
        ((registerChecks f rest).1,
          Event.addCheck c.Name :: (registerChecks f rest).2)

/-- Modelled from the spec: setupAgent is called by Run but its body is
not under src.  On success it starts the agent and records the rpc and
http handles; on failure it tears down whatever was already started, in
reverse acquisition order, before reporting the error. -/
def setupAgent (env : Env) : Option AgentHandles × List Event :=
  match env.setup with
  | SetupOutcome.ok rpc http =>
      (some ⟨rpc, http⟩,
        [Event.subsysStart Subsys.agent]
          ++ (if rpc then [Event.subsysStart Subsys.rpc] else [])
          ++ (if http then [Event.subsysStart Subsys.http] else []))
  | SetupOutcome.fail started =>
      (none,
        started.map Event.subsysStart
          ++ started.reverse.map (fun s => Event.shutdown s (env.shutdownErr s)))

/-- Deferred shutdown calls registered by Run after a successful
setupAgent, in their execution order.  The source defers the agent
shutdown first, then the rpc shutdown when the handle is non-nil, then
the http shutdown when that handle is non-nil; Go runs deferred calls
last-in first-out, so the execution order is http, then rpc, then
agent, skipping any nil handle. -/
def deferSeq (env : Env) (hs : AgentHandles) : List Event :=
  (if hs.http then [Event.shutdown Subsys.http (env.shutdownErr Subsys.http)] else [])
    ++ (if hs.rpc then [Event.shutdown Subsys.rpc (env.shutdownErr Subsys.rpc)] else [])
    ++ [Event.shutdown Subsys.agent (env.shutdownErr Subsys.agent)]

/-- Operator banner printed when the agent reaches the running state. -/
def banner (config : Config) : List Event :=
  [Event.uiOutput "Consul agent running!",
   Event.uiInfo ("     Node name: \x27" ++ config.NodeName ++ "\x27"),
   Event.uiInfo ("    Datacenter: \x27" ++ config.Datacenter ++ "\x27"),
   Event.uiInfo ("        Server: " ++ toString config.Server
     ++ " (bootstrap: " ++ toString config.Bootstrap ++ ")"),
   Event.uiInfo ("   Client Addr: " ++ config.ClientAddr
     ++ " (HTTP: " ++ toString config.Ports.HTTP
     ++ ", DNS: " ++ toString config.Ports.DNS
     ++ ", RPC: " ++ toString config.Ports.RPC ++ ")"),
   Event.uiInfo ("  Cluster Addr: " ++ config.AdvertiseAddr
     ++ " (LAN: " ++ toString config.Ports.SerfLan
     ++ ", WAN: " ++ toString config.Ports.SerfWan ++ ")"),
   Event.uiInfo ("Gossip encrypt: " ++ toString (config.EncryptKey != "")
     ++ ", RPC-TLS: " ++ toString config.VerifyOutgoing
     ++ ", TLS-Incoming: " ++ toString config.VerifyIncoming),
   Event.uiInfo "",
   Event.uiOutput "Log data will now stream in as it occurs:\n"]

/-- Tail of Run after the check loop: announce sync, print the banner,
release the log gate and block on the signal handler; the deferred
shutdowns run after the handler returns. -/
def runAfterServices (env : Env) (config : Config) (tr defers : List Event) :
    Int × List Event :=
  match (registerChecks env.addCheck config.Checks).1 with
  | some _ => (1, tr ++ (registerChecks env.addCheck config.Checks).2 ++ defers)
  | none =>
      (env.signalsExit,
        tr ++ (registerChecks env.addCheck config.Checks).2
          ++ [Event.startSync] ++ banner config ++ [Event.gateFlush] ++ defers)

/-- Tail of Run after a successful join: the service loop, then the
check loop; a registration error returns one with the deferred
shutdowns appended. -/
def runAfterJoin (env : Env) (config : Config) (tr defers : List Event) :
    Int × List Event :=
  match (registerServices env.addService config.Services).1 with
  | some _ => (1, tr ++ (registerServices env.addService config.Services).2 ++ defers)
  | none =>
      runAfterServices env config
        (tr ++ (registerServices env.addService config.Services).2) defers

/-- Tail of Run after a successful setupAgent: the join step; a join
error is printed and returns one, again with the deferred shutdowns
appended. -/
def runAfterSetup (env : Env) (config : Config) (tr defers : List Event) :
    Int × List Event :=
  match (startupJoin env.reachable config).1 with
  | some e =>
      (1, tr ++ (startupJoin env.reachable config).2 ++ [Event.uiError e] ++ defers)
  | none =>
      runAfterJoin env config (tr ++ (startupJoin env.reachable config).2) defers

/-- Agent phase of Run: call setupAgent; on failure return one with its
events (its internal teardown included); on success register the
deferred shutdowns and continue. -/
def runAgentPhase (env : Env) (config : Config) (tr : List Event) :
    Int × List Event :=
  match (setupAgent env).1 with
  | none => (1, tr ++ (setupAgent env).2)
  | some hs => runAfterSetup env config (tr ++ (setupAgent env).2) (deferSeq env hs)

/-- Orchestration of Run after the configuration snapshot is resolved:
the GOMAXPROCS warning, the logger check, the telemetry wiring with the
optional statsite sink, then the agent phase. -/
def runAfterConfig (env : Env) (config : Config) (tr : List Event) :
    Int × List Event :=
  if env.logWriterOk then
    if config.StatsiteAddr ≠ "" then
      match env.statsite config.StatsiteAddr with
      | some e =>
          (1, tr ++ warnEvents env
            ++ [Event.uiError ("Failed to start statsite sink. Got: " ++ e)])
      | none =>
          runAgentPhase env config
            (tr ++ warnEvents env ++ [Event.newGlobal true true])
    else
      runAgentPhase env config
        (tr ++ warnEvents env ++ [Event.newGlobal false false])
  else (1, tr ++ warnEvents env)

/-- Embedding of ServiceCommand.Run: resolve the configuration, then run
the orchestration; a nil snapshot returns one immediately. -/
def RunTrace (c : ServiceCommand) (env : Env) (args : List String) :
    Int × List Event :=
  match (readConfig c env.hostname args).1 with
  | none => (1, (readConfig c env.hostname args).2)
  | some config => runAfterConfig env config (readConfig c env.hostname args).2

/-- True exactly on shutdown events. -/
def Event.isShutdown : Event → Bool
  | Event.shutdown _ _ => true
  | _ => false

/-- True exactly on subsystem start events. -/
def Event.isSubsysStart : Event → Bool
  | Event.subsysStart _ => true
  | _ => false

/-- True exactly on AddService call events. -/
def Event.isAddService : Event → Bool
  | Event.addService _ => true
  | _ => false

/-- True exactly on AddCheck call events. -/
def Event.isAddCheck : Event → Bool
  | Event.addCheck _ => true
  | _ => false

/-- True exactly on global metrics sink installation events. -/
def Event.isNewGlobal : Event → Bool
  | Event.newGlobal _ _ => true
  | _ => false

/-- Telemetry wiring succeeds: either no statsite address is configured,
or the connector to the configured address comes up. -/
def TelemetryOk (env : Env) (config : Config) : Prop :=
  config.StatsiteAddr = "" ∨ env.statsite config.StatsiteAddr = none

/-- Modelled from the spec: the log gate constructed by setupLoggers,
whose body is not under src.  It buffers writes while gated; the first
flush emits the buffer downstream in arrival order and releases the
gate; afterwards writes forward directly and further flushes are
no-ops. -/
structure GatedWriter where
  buffer : List String
  flushed : Bool
  out : List String
deriving DecidableEq, Repr

/-- Fresh gate: empty buffer, gated, nothing emitted. -/
def GatedWriter.init : GatedWriter := ⟨[], false, []⟩

/-- Write one entry: buffered while gated, forwarded downstream once
released. -/
def GatedWriter.write (g : GatedWriter) (e : String) : GatedWriter :=
  if g.flushed then { g with out := g.out ++ [e] }
  else { g with buffer := g.buffer ++ [e] }

/-- Release the gate: on the first call emit the buffer in order and
mark the gate released; afterwards do nothing. -/
def GatedWriter.flush (g : GatedWriter) : GatedWriter :=
  if g.flushed then g
  else { buffer := [], flushed := true, out := g.out ++ g.buffer }

/-- Write a list of entries in order. -/
def GatedWriter.writeAll (g : GatedWriter) : List String → GatedWriter
  | [] => g
  | e :: rest => (g.write e).writeAll rest

/-- While the gate is still closed, writing only accumulates into the
buffer and emits nothing downstream. -/
lemma GatedWriter.writeAll_gated (ws : List String) : ∀ (g : GatedWriter),
    g.flushed = false →
    (g.writeAll ws).flushed = false ∧ (g.writeAll ws).out = g.out ∧
    (g.writeAll ws).buffer = g.buffer ++ ws := by
  induction ws with
  | nil => intro g hg; simp [GatedWriter.writeAll, hg]
  | cons e rest ih =>
    intro g hg
    have hw : g.write e = { g with buffer := g.buffer ++ [e] } := by
      simp [GatedWriter.write, hg]
    have h := ih (g.write e) (by rw [hw]; exact hg)
    rw [hw] at h
    simp only [GatedWriter.writeAll]
    rw [hw]
    exact ⟨h.1, h.2.1, by rw [h.2.2]; simp⟩

/-- Once the gate is released, every write is forwarded downstream
immediately. -/
lemma GatedWriter.writeAll_open (ws : List String) : ∀ (g : GatedWriter),
    g.flushed = true →
    (g.writeAll ws).flushed = true ∧ (g.writeAll ws).out = g.out ++ ws ∧
    (g.writeAll ws).buffer = g.buffer := by
  induction ws with
  | nil => intro g hg; simp [GatedWriter.writeAll, hg]
  | cons e rest ih =>
    intro g hg
    have hw : g.write e = { g with out := g.out ++ [e] } := by
      simp [GatedWriter.write, hg]
    have h := ih (g.write e) (by rw [hw]; exact hg)
    rw [hw] at h
    simp only [GatedWriter.writeAll]
    rw [hw]
    exact ⟨h.1, by rw [h.2.1]; simp, h.2.2⟩

/-- C8: entries written to the log gate before the first flush are not
observable downstream; the first flush emits them exactly once in their
arrival order; every write after the first flush is forwarded
immediately; and a second flush emits nothing. -/
theorem log_gate_semantics (ws vs : List String) (v : String) :
    (GatedWriter.init.writeAll ws).out = [] ∧
    ((GatedWriter.init.writeAll ws).flush).out = ws ∧
    (((GatedWriter.init.writeAll ws).flush).write v).out = ws ++ [v] ∧
    (((GatedWriter.init.writeAll ws).flush).writeAll vs).out = ws ++ vs ∧
    ((GatedWriter.init.writeAll ws).flush).flush =
      (GatedWriter.init.writeAll ws).flush := by
  have h := GatedWriter.writeAll_gated ws GatedWriter.init rfl
  have hf : (GatedWriter.init.writeAll ws).flush = ⟨[], true, ws⟩ := by
    simp [GatedWriter.flush, h.1, GatedWriter.init] at *
    simp [GatedWriter.flush, h.1, h.2.1, h.2.2]
  refine ⟨h.2.1, ?_, ?_, ?_, ?_⟩
  · rw [hf]
  · rw [hf]; simp [GatedWriter.write]
  · rw [hf]
    have ho := GatedWriter.writeAll_open vs ⟨[], true, ws⟩ rfl
    exact ho.2.1
  · rw [hf]; simp [GatedWriter.flush]

/-- Every snapshot readConfig returns comes from a successful hostname
lookup and is DefaultConfig with the node name and build metadata
filled in. -/
lemma readConfig_some_shape (c : ServiceCommand) (host : Except String String)
    (args : List String) (config : Config)
    (hc : (readConfig c host args).1 = some config) :
    ∃ h : String, host = Except.ok h ∧
      config = { DefaultConfig with
                   NodeName := h
                   Revision := c.Revision
                   Version := c.Version
                   VersionPrerelease := c.VersionPrerelease } := by
  unfold readConfig at hc
  cases hp : parseFlags args {} with
  | none => rw [hp] at hc; simp at hc
  | some cc =>
    rw [hp] at hc
    cases host with
    | error e => simp [DefaultConfig] at hc
    | ok h =>
      simp only [DefaultConfig] at hc
      simp at hc
      exact ⟨h, rfl, hc.symm⟩

/-- Whenever readConfig returns a snapshot it emitted no output. -/
lemma readConfig_some_events (c : ServiceCommand) (host : Except String String)
    (args : List String) (config : Config)
    (hc : (readConfig c host args).1 = some config) :
    (readConfig c host args).2 = [] := by
  unfold readConfig at hc ⊢
  cases hp : parseFlags args {} with
  | none => rfl
  | some cc =>
    rw [hp] at hc
    cases host with
    | error e => simp [DefaultConfig] at hc
    | ok h => simp [DefaultConfig]

/-- C9: DefaultConfig fixes log level INFO, bind address 0.0.0.0, HTTP
port 8500 and internal RPC port 8300, and every snapshot readConfig
returns still carries those values, since nothing in the fragment
overrides them. -/
theorem default_config_values_carried (c : ServiceCommand)
    (host : Except String String) (args : List String) (config : Config)
    (hc : (readConfig c host args).1 = some config) :
    DefaultConfig.LogLevel = "INFO" ∧ DefaultConfig.BindAddr = "0.0.0.0" ∧
    DefaultConfig.Ports.HTTP = 8500 ∧ DefaultConfig.Ports.Server = 8300 ∧
    config.LogLevel = "INFO" ∧ config.BindAddr = "0.0.0.0" ∧
    config.Ports.HTTP = 8500 ∧ config.Ports.Server = 8300 := by
  obtain ⟨h, -, rfl⟩ := readConfig_some_shape c host args config hc
  exact ⟨rfl, rfl, rfl, rfl, rfl, rfl, rfl, rfl⟩

/-- Witness for C9 at a concrete input. -/
theorem default_config_values_carried_witness :
    (readConfig {} (Except.ok "h0") []).1 =
      some { DefaultConfig with NodeName := "h0" } ∧
    ({ DefaultConfig with NodeName := "h0" } : Config).LogLevel = "INFO" ∧
    ({ DefaultConfig with NodeName := "h0" } : Config).Ports.HTTP = 8500 ∧
    ({ DefaultConfig with NodeName := "h0" } : Config).Ports.Server = 8300 := by
  have h := default_config_values_carried {} (Except.ok "h0") []
    { DefaultConfig with NodeName := "h0" } (by decide)
  exact ⟨by decide, h.2.2.2.2.1, h.2.2.2.2.2.2.1, h.2.2.2.2.2.2.2⟩

/-- C4: when the node name is unset after resolution the snapshot takes
the host identity; a failed identity lookup is reported, readConfig
returns no snapshot at all, and Run returns one. -/
theorem hostname_resolution_fallback (c : ServiceCommand) (args : List String)
    (cc : CmdConfig) (h e : String)
    (hp : parseFlags args {} = some cc) :
    (readConfig c (Except.ok h) args).1 =
      some { DefaultConfig with
               NodeName := h
               Revision := c.Revision
               Version := c.Version
               VersionPrerelease := c.VersionPrerelease } ∧
    readConfig c (Except.error e) args =
      (none, [Event.uiError ("Error determining hostname: " ++ e)]) ∧
    (∀ env : Env, env.hostname = Except.error e → (RunTrace c env args).1 = 1) := by
  refine ⟨?_, ?_, ?_⟩
  · unfold readConfig
    rw [hp]
    simp [DefaultConfig]
  · unfold readConfig
    rw [hp]
    simp [DefaultConfig]
  · intro env he
    have hr : (readConfig c env.hostname args).1 = none := by
      rw [he]
      unfold readConfig
      rw [hp]
      simp [DefaultConfig]
    unfold RunTrace
    rw [hr]

/-- Concrete environment in which every collaborator succeeds. -/
def env0 : Env :=
  { hostname := Except.ok "h0"
    gomaxprocs := 4
    logWriterOk := true
    statsite := fun _ => none
    setup := SetupOutcome.ok true true
    reachable := fun _ => true
    addService := fun _ => none
    addCheck := fun _ => none
    shutdownErr := fun _ => false
    signalsExit := 0 }

/-- Witness for C4 at a concrete input. -/
theorem hostname_resolution_fallback_witness :
    (readConfig {} (Except.ok "h0") []).1 =
      some { DefaultConfig with NodeName := "h0" } ∧
    readConfig {} (Except.error "no-host") [] =
      (none, [Event.uiError ("Error determining hostname: " ++ "no-host")]) ∧
    (RunTrace {} { env0 with hostname := Except.error "no-host" } []).1 = 1 := by
  have h := hostname_resolution_fallback {} [] {} "h0" "no-host" rfl
  exact ⟨h.1, h.2.1, h.2.2 _ rfl⟩

/-- C6: the source parses the log-level, node and bind flags into
cmdConfig, but the MergeConfig call that would apply them is commented
out, so the returned snapshot ignores them: with all three flags set to
non-empty values the snapshot still carries log level INFO, the
hostname as node name and bind address 0.0.0.0. -/
theorem flags_parsed_but_dropped :
    parseFlags ["-log-level", "DEBUG", "-node", "n1", "-bind", "10.0.0.5"] {} =
      some { LogLevel := "DEBUG", NodeName := "n1", BindAddr := "10.0.0.5" } ∧
    (readConfig {} (Except.ok "myhost")
        ["-log-level", "DEBUG", "-node", "n1", "-bind", "10.0.0.5"]).1 =
      some { DefaultConfig with NodeName := "myhost" } := by
  exact ⟨by decide, by decide⟩

/-- Exit propagation for the tail after the service loop: either one,
or the signal handler result after the sync announcement. -/
lemma runAfterServices_result (env : Env) (config : Config) (tr defers : List Event) :
    (runAfterServices env config tr defers).1 = 1 ∨
    ((runAfterServices env config tr defers).1 = env.signalsExit ∧
      Event.startSync ∈ (runAfterServices env config tr defers).2) := by
  unfold runAfterServices
  cases h : (registerChecks env.addCheck config.Checks).1 with
  | some n => left; rfl
  | none => right; exact ⟨rfl, by simp⟩

/-- Exit propagation for the tail after the join step. -/
lemma runAfterJoin_result (env : Env) (config : Config) (tr defers : List Event) :
    (runAfterJoin env config tr defers).1 = 1 ∨
    ((runAfterJoin env config tr defers).1 = env.signalsExit ∧
      Event.startSync ∈ (runAfterJoin env config tr defers).2) := by
  unfold runAfterJoin
  cases h : (registerServices env.addService config.Services).1 with
  | some n => left; rfl
  | none =>
      exact runAfterServices_result env config
        (tr ++ (registerServices env.addService config.Services).2) defers

/-- Exit propagation for the tail after setupAgent. -/
lemma runAfterSetup_result (env : Env) (config : Config) (tr defers : List Event) :
    (runAfterSetup env config tr defers).1 = 1 ∨
    ((runAfterSetup env config tr defers).1 = env.signalsExit ∧
      Event.startSync ∈ (runAfterSetup env config tr defers).2) := by
  unfold runAfterSetup
  cases h : (startupJoin env.reachable config).1 with
  | some e => left; rfl
  | none =>
      exact runAfterJoin_result env config
        (tr ++ (startupJoin env.reachable config).2) defers

/-- Exit propagation for the agent phase. -/
lemma runAgentPhase_result (env : Env) (config : Config) (tr : List Event) :
    (runAgentPhase env config tr).1 = 1 ∨
    ((runAgentPhase env config tr).1 = env.signalsExit ∧
      Event.startSync ∈ (runAgentPhase env config tr).2) := by
  unfold runAgentPhase
  cases h : (setupAgent env).1 with
  | none => left; rfl
  | some hs =>
      exact runAfterSetup_result env config (tr ++ (setupAgent env).2) (deferSeq env hs)

/-- Exit propagation for the whole post-configuration orchestration. -/
lemma runAfterConfig_result (env : Env) (config : Config) (tr : List Event) :
    (runAfterConfig env config tr).1 = 1 ∨
    ((runAfterConfig env config tr).1 = env.signalsExit ∧
      Event.startSync ∈ (runAfterConfig env config tr).2) := by
  unfold runAfterConfig
  by_cases hl : env.logWriterOk = true
  · by_cases ha : config.StatsiteAddr = ""
    · simp only [hl, ha, ne_eq, not_true_eq_false, if_false, if_true]
      exact runAgentPhase_result env config
        (tr ++ warnEvents env ++ [Event.newGlobal false false])
    · simp only [hl, ne_eq, ha, not_false_eq_true, if_true]
      cases hs : env.statsite config.StatsiteAddr with
      | some e => left; rfl
      | none =>
          exact runAgentPhase_result env config
            (tr ++ warnEvents env ++ [Event.newGlobal true true])
  · simp only [Bool.not_eq_true] at hl
    simp [hl]

/-- C10: every fatal path of Run returns exactly one; the only other
value Run can return is the signal handler result, which is reached
only after the sync announcement, and the same dichotomy holds for the
orchestration applied to an arbitrary resolved snapshot. -/
theorem run_exit_one_or_signals (c : ServiceCommand) (env : Env)
    (args : List String) (config : Config) (tr : List Event) :
    ((RunTrace c env args).1 = 1 ∨
      ((RunTrace c env args).1 = env.signalsExit ∧
        Event.startSync ∈ (RunTrace c env args).2)) ∧
    ((runAfterConfig env config tr).1 = 1 ∨
      ((runAfterConfig env config tr).1 = env.signalsExit ∧
        Event.startSync ∈ (runAfterConfig env config tr).2)) := by
  constructor
  · unfold RunTrace
    cases h : (readConfig c env.hostname args).1 with
    | none => left; rfl
    | some cfg => exact runAfterConfig_result env cfg (readConfig c env.hostname args).2
  · exact runAfterConfig_result env config tr

/-- Mapping a constructor the predicate rejects filters to nothing. -/
lemma filter_map_eq_nil {α : Type} (p : Event → Bool) (f : α → Event)
    (hf : ∀ a, p (f a) = false) (l : List α) :
    (l.map f).filter p = [] := by
  induction l with
  | nil => rfl
  | cons a rest ih => simp [hf, ih]

/-- Mapping a constructor the predicate accepts filters to itself. -/
lemma filter_map_eq_self {α : Type} (p : Event → Bool) (f : α → Event)
    (hf : ∀ a, p (f a) = true) (l : List α) :
    (l.map f).filter p = l.map f := by
  induction l with
  | nil => rfl
  | cons a rest ih => simp [hf, ih]

/-- A list on which the predicate is everywhere false filters to
nothing. -/
lemma filter_eq_nil_of_forall {α : Type} {l : List α} {r : α → Bool}
    (h : ∀ a ∈ l, r a = false) : l.filter r = [] := by
  induction l with
  | nil => rfl
  | cons a rest ih =>
      simp [h a (by simp), ih (fun x hx => h x (by simp [hx]))]

/-- The join step emits only join attempt events. -/
lemma startupJoin_events (r : String → Bool) (config : Config) :
    (startupJoin r config).2 = [] ∨
    (startupJoin r config).2 = config.StartJoin.map Event.joinAttempt := by
  unfold startupJoin
  split
  · left; rfl
  · split
    · right; rfl
    · right; rfl

/-- Filtering the join events with a predicate that rejects join
attempts gives nothing. -/
lemma startupJoin_filter (p : Event → Bool)
    (hja : ∀ a, p (Event.joinAttempt a) = false)
    (r : String → Bool) (config : Config) :
    ((startupJoin r config).2).filter p = [] := by
  rcases startupJoin_events r config with h | h <;> rw [h]
  · rfl
  · exact filter_map_eq_nil p Event.joinAttempt hja config.StartJoin

/-- The service loop emits only AddService calls and error reports. -/
lemma registerServices_filter (p : Event → Bool)
    (hasv : ∀ n, p (Event.addService n) = false)
    (hue : ∀ m, p (Event.uiError m) = false)
    (f : String → Option String) : ∀ l : List ServiceDef,
    ((registerServices f l).2).filter p = []
  | [] => rfl
  | s :: rest => by
    unfold registerServices
    cases h : f s.Name with
    | some err => simp [hasv, hue]
    | none => simp [hasv, registerServices_filter p hasv hue f rest]

/-- The check loop emits only AddCheck calls and error reports. -/
lemma registerChecks_filter (p : Event → Bool)
    (hac : ∀ n, p (Event.addCheck n) = false)
    (hue : ∀ m, p (Event.uiError m) = false)
    (f : String → Option String) : ∀ l : List CheckDef,
    ((registerChecks f l).2).filter p = []
  | [] => rfl
  | c :: rest => by
    unfold registerChecks
    cases h : f c.Name with
    | some err => simp [hac, hue]
    | none => simp [hac, registerChecks_filter p hac hue f rest]

/-- The banner emits only operator output lines. -/
lemma banner_filter (p : Event → Bool)
    (huo : ∀ m, p (Event.uiOutput m) = false)
    (hui : ∀ m, p (Event.uiInfo m) = false)
    (config : Config) : (banner config).filter p = [] := by
  simp [banner, huo, hui]

/-- The GOMAXPROCS warning emits only an error line. -/
lemma warnEvents_filter (p : Event → Bool)
    (hue : ∀ m, p (Event.uiError m) = false) (env : Env) :
    (warnEvents env).filter p = [] := by
  unfold warnEvents
  split <;> simp [hue]

/-- The deferred shutdown sequence filters to nothing under a predicate
that rejects shutdown events. -/
lemma deferSeq_filter_nil (p : Event → Bool)
    (hsd : ∀ s b, p (Event.shutdown s b) = false)
    (env : Env) (hs : AgentHandles) :
    (deferSeq env hs).filter p = [] := by
  obtain ⟨r, h⟩ := hs
  cases r <;> cases h <;> simp [deferSeq, hsd]

/-- The deferred shutdown sequence consists of shutdown events only. -/
lemma deferSeq_filter_shutdown (env : Env) (hs : AgentHandles) :
    (deferSeq env hs).filter Event.isShutdown = deferSeq env hs := by
  obtain ⟨r, h⟩ := hs
  cases r <;> cases h <;> simp [deferSeq, Event.isShutdown]

/-- Trace shape of the tail after the service loop: everything it adds
besides the passed-through prefix and the deferred shutdowns is
rejected by any predicate refusing check calls, errors, the sync
announcement, banner lines and the gate release. -/
lemma runAfterServices_filter (p : Event → Bool)
    (hue : ∀ m, p (Event.uiError m) = false)
    (hac : ∀ n, p (Event.addCheck n) = false)
    (hsy : p Event.startSync = false)
    (huo : ∀ m, p (Event.uiOutput m) = false)
    (hui : ∀ m, p (Event.uiInfo m) = false)
    (hgf : p Event.gateFlush = false)
    (env : Env) (config : Config) (tr defers : List Event) :
    ((runAfterServices env config tr defers).2).filter p =
      tr.filter p ++ defers.filter p := by
  unfold runAfterServices
  cases h : (registerChecks env.addCheck config.Checks).1 with
  | some n =>
      simp [List.filter_append,
        registerChecks_filter p hac hue env.addCheck config.Checks]
  | none =>
      simp [List.filter_append,
        registerChecks_filter p hac hue env.addCheck config.Checks,
        banner_filter p huo hui config, hsy, hgf]

/-- Trace shape of the tail after the join step, additionally refusing
service calls. -/
lemma runAfterJoin_filter (p : Event → Bool)
    (hue : ∀ m, p (Event.uiError m) = false)
    (hasv : ∀ n, p (Event.addService n) = false)
    (hac : ∀ n, p (Event.addCheck n) = false)
    (hsy : p Event.startSync = false)
    (huo : ∀ m, p (Event.uiOutput m) = false)
    (hui : ∀ m, p (Event.uiInfo m) = false)
    (hgf : p Event.gateFlush = false)
    (env : Env) (config : Config) (tr defers : List Event) :
    ((runAfterJoin env config tr defers).2).filter p =
      tr.filter p ++ defers.filter p := by
  unfold runAfterJoin
  cases h : (registerServices env.addService config.Services).1 with
  | some n =>
      simp [List.filter_append,
        registerServices_filter p hasv hue env.addService config.Services]
  | none =>
      rw [runAfterServices_filter p hue hac hsy huo hui hgf env config _ defers]
      simp [List.filter_append,
        registerServices_filter p hasv hue env.addService config.Services]

/-- Trace shape of the tail after setupAgent, additionally refusing
join attempts. -/
lemma runAfterSetup_filter (p : Event → Bool)
    (hue : ∀ m, p (Event.uiError m) = false)
    (hja : ∀ a, p (Event.joinAttempt a) = false)
    (hasv : ∀ n, p (Event.addService n) = false)
    (hac : ∀ n, p (Event.addCheck n) = false)
    (hsy : p Event.startSync = false)
    (huo : ∀ m, p (Event.uiOutput m) = false)
    (hui : ∀ m, p (Event.uiInfo m) = false)
    (hgf : p Event.gateFlush = false)
    (env : Env) (config : Config) (tr defers : List Event) :
    ((runAfterSetup env config tr defers).2).filter p =
      tr.filter p ++ defers.filter p := by
  unfold runAfterSetup
  cases h : (startupJoin env.reachable config).1 with
  | some e =>
      simp [List.filter_append,
        startupJoin_filter p hja env.reachable config, hue]
  | none =>
      rw [runAfterJoin_filter p hue hasv hac hsy huo hui hgf env config _ defers]
      simp [List.filter_append,
        startupJoin_filter p hja env.reachable config]

/-- When the logger opens and telemetry wiring succeeds, the
orchestration reaches the agent phase with only the warning and one
metrics installation event in the trace. -/
lemma runAfterConfig_telemetry_ok (env : Env) (config : Config)
    (hlw : env.logWriterOk = true) (ht : TelemetryOk env config) :
    ∃ b : Bool, runAfterConfig env config [] =
      runAgentPhase env config (warnEvents env ++ [Event.newGlobal b b]) := by
  unfold runAfterConfig
  rcases ht with ha | hstat
  · exact ⟨false, by simp [hlw, ha]⟩
  · by_cases ha : config.StatsiteAddr = ""
    · exact ⟨false, by simp [hlw, ha]⟩
    · exact ⟨true, by simp [hlw, ha, hstat]⟩

/-- The events setupAgent emits are subsystem starts and, on its
failure path, shutdowns; a predicate rejecting both filters them to
nothing. -/
lemma setupAgent_filter (p : Event → Bool)
    (hss : ∀ s, p (Event.subsysStart s) = false)
    (hsd : ∀ s b, p (Event.shutdown s b) = false)
    (env : Env) : ((setupAgent env).2).filter p = [] := by
  unfold setupAgent
  cases env.setup with
  | ok rpc http => cases rpc <;> cases http <;> simp [hss]
  | fail started =>
      simp [List.filter_append,
        filter_map_eq_nil p Event.subsysStart hss started]
      exact fun a _ => hsd a (env.shutdownErr a)

/-- Trace shape of the whole agent phase under a predicate that rejects
every event kind the phase can add. -/
lemma runAgentPhase_filter (p : Event → Bool)
    (hue : ∀ m, p (Event.uiError m) = false)
    (hss : ∀ s, p (Event.subsysStart s) = false)
    (hsd : ∀ s b, p (Event.shutdown s b) = false)
    (hja : ∀ a, p (Event.joinAttempt a) = false)
    (hasv : ∀ n, p (Event.addService n) = false)
    (hac : ∀ n, p (Event.addCheck n) = false)
    (hsy : p Event.startSync = false)
    (huo : ∀ m, p (Event.uiOutput m) = false)
    (hui : ∀ m, p (Event.uiInfo m) = false)
    (hgf : p Event.gateFlush = false)
    (env : Env) (config : Config) (tr : List Event) :
    ((runAgentPhase env config tr).2).filter p = tr.filter p := by
  unfold runAgentPhase
  cases h : (setupAgent env).1 with
  | none => simp [List.filter_append, setupAgent_filter p hss hsd env]
  | some hs =>
      rw [runAfterSetup_filter p hue hja hasv hac hsy huo hui hgf env config _ _]
      simp [List.filter_append, setupAgent_filter p hss hsd env,
        deferSeq_filter_nil p hsd env hs]

/-- C1: after a successful startup, every exit of the orchestration runs
exactly these shutdowns, in this order: the HTTP server first when its
handle is non-nil, then the RPC server when its handle is non-nil, then
the core agent handle; each is attempted regardless of the error any
earlier shutdown reports, and skipped exactly when its handle is nil. -/
theorem shutdown_reverse_order (env : Env) (config : Config) (rpc http : Bool)
    (hlw : env.logWriterOk = true)
    (ht : TelemetryOk env config)
    (hs : env.setup = SetupOutcome.ok rpc http) :
    ((runAfterConfig env config []).2).filter Event.isShutdown =
      (if http then [Event.shutdown Subsys.http (env.shutdownErr Subsys.http)] else [])
        ++ (if rpc then [Event.shutdown Subsys.rpc (env.shutdownErr Subsys.rpc)] else [])
        ++ [Event.shutdown Subsys.agent (env.shutdownErr Subsys.agent)] := by
  obtain ⟨b, hb⟩ := runAfterConfig_telemetry_ok env config hlw ht
  rw [hb]
  have hsa : setupAgent env =
      (some ⟨rpc, http⟩,
        [Event.subsysStart Subsys.agent]
          ++ (if rpc then [Event.subsysStart Subsys.rpc] else [])
          ++ (if http then [Event.subsysStart Subsys.http] else [])) := by
    unfold setupAgent; rw [hs]
  simp only [runAgentPhase, hsa]
  rw [runAfterSetup_filter Event.isShutdown (fun _ => rfl) (fun _ => rfl)
    (fun _ => rfl) (fun _ => rfl) rfl (fun _ => rfl) (fun _ => rfl) rfl
    env config _ _]
  rw [deferSeq_filter_shutdown]
  have hw := warnEvents_filter Event.isShutdown (fun _ => rfl) env
  cases rpc <;> cases http <;>
    simp [List.filter_append, hw, deferSeq, Event.isShutdown]

/-- Witness for C1 at a concrete input. -/
theorem shutdown_reverse_order_witness :
    ((runAfterConfig env0 DefaultConfig []).2).filter Event.isShutdown =
      [Event.shutdown Subsys.http false, Event.shutdown Subsys.rpc false,
       Event.shutdown Subsys.agent false] := by
  have h := shutdown_reverse_order env0 DefaultConfig true true rfl (Or.inl rfl) rfl
  simpa using h

/-- C7: when setupAgent fails, the orchestration returns one and each
subsystem started before the failure point still has its shutdown
invoked, in reverse acquisition order, before the return. -/
theorem setup_failure_teardown (env : Env) (config : Config)
    (started : List Subsys)
    (hlw : env.logWriterOk = true)
    (ht : TelemetryOk env config)
    (hs : env.setup = SetupOutcome.fail started) :
    (runAfterConfig env config []).1 = 1 ∧
    ((runAfterConfig env config []).2).filter Event.isShutdown =
      started.reverse.map (fun s => Event.shutdown s (env.shutdownErr s)) := by
  obtain ⟨b, hb⟩ := runAfterConfig_telemetry_ok env config hlw ht
  rw [hb]
  have hsa : setupAgent env =
      (none, started.map Event.subsysStart
        ++ started.reverse.map (fun s => Event.shutdown s (env.shutdownErr s))) := by
    unfold setupAgent; rw [hs]
  simp only [runAgentPhase, hsa]
  refine ⟨by trivial, ?_⟩
  simp [List.filter_append,
    warnEvents_filter Event.isShutdown (fun _ => rfl) env,
    filter_map_eq_nil Event.isShutdown Event.subsysStart (fun _ => rfl) started,
    filter_map_eq_self Event.isShutdown
      (fun s => Event.shutdown s (env.shutdownErr s)) (fun _ => rfl) started.reverse,
    Event.isShutdown]

/-- Witness for C7 at a concrete input. -/
theorem setup_failure_teardown_witness :
    (runAfterConfig { env0 with
        setup := SetupOutcome.fail [Subsys.agent, Subsys.rpc] } DefaultConfig []).1 = 1 ∧
    ((runAfterConfig { env0 with
        setup := SetupOutcome.fail [Subsys.agent, Subsys.rpc] } DefaultConfig []).2).filter
        Event.isShutdown =
      [Event.shutdown Subsys.rpc false, Event.shutdown Subsys.agent false] := by
  have h := setup_failure_teardown
    { env0 with setup := SetupOutcome.fail [Subsys.agent, Subsys.rpc] }
    DefaultConfig [Subsys.agent, Subsys.rpc] rfl (Or.inl rfl) rfl
  exact ⟨h.1, by rw [h.2]; rfl⟩

/-- C2: the initial join is asymmetric: an empty start-join list means
no attempt and no error; at least one reachable listed address lets
startup proceed past the join; a non-empty list with zero reachable
addresses makes the join fail and the orchestration return one. -/
theorem startup_join_asymmetry (env : Env) (config : Config) (rpc http : Bool)
    (hlw : env.logWriterOk = true)
    (ht : TelemetryOk env config)
    (hs : env.setup = SetupOutcome.ok rpc http) :
    (config.StartJoin = [] → startupJoin env.reachable config = (none, [])) ∧
    ((∃ a ∈ config.StartJoin, env.reachable a = true) →
      (startupJoin env.reachable config).1 = none) ∧
    (config.StartJoin ≠ [] → (∀ a ∈ config.StartJoin, env.reachable a = false) →
      (runAfterConfig env config []).1 = 1) := by
  refine ⟨?_, ?_, ?_⟩
  · intro h
    unfold startupJoin
    simp [h]
  · rintro ⟨a, ha, hr⟩
    have hne : config.StartJoin ≠ [] := List.ne_nil_of_mem ha
    have hmem : a ∈ config.StartJoin.filter env.reachable :=
      List.mem_filter.2 ⟨ha, hr⟩
    have hlen : (config.StartJoin.filter env.reachable).length ≠ 0 := by
      intro h0
      rw [List.length_eq_zero] at h0
      rw [h0] at hmem
      exact absurd hmem (List.not_mem_nil a)
    unfold startupJoin
    simp [hne, hlen]
  · intro hne hall
    have hj : (startupJoin env.reachable config).1 =
        some "agent: could not join any of the specified addresses" := by
      have h0 : config.StartJoin.filter env.reachable = [] :=
        filter_eq_nil_of_forall hall
      unfold startupJoin
      simp [hne, h0]
    obtain ⟨b, hb⟩ := runAfterConfig_telemetry_ok env config hlw ht
    rw [hb]
    have hsa1 : (setupAgent env).1 = some ⟨rpc, http⟩ := by
      unfold setupAgent; rw [hs]
    simp only [runAgentPhase, hsa1]
    simp only [runAfterSetup, hj]

/-- Witness for C2 at a concrete input. -/
theorem startup_join_asymmetry_witness :
    (runAfterConfig { env0 with reachable := fun _ => false }
      { DefaultConfig with StartJoin := ["10.0.0.1:8301", "10.0.0.2:8301"] } []).1 = 1 ∧
    startupJoin env0.reachable DefaultConfig = (none, []) := by
  have h := startup_join_asymmetry { env0 with reachable := fun _ => false }
    { DefaultConfig with StartJoin := ["10.0.0.1:8301", "10.0.0.2:8301"] }
    true true rfl (Or.inl rfl) rfl
  have h0 := startup_join_asymmetry env0 DefaultConfig true true rfl (Or.inl rfl) rfl
  exact ⟨h.2.2 (by decide) (by decide), h0.1 rfl⟩

/-- The service loop on a split list whose prefix registers cleanly and
whose next descriptor fails stops at the failing one, returning its
name, having called AddService once per prefix entry and once for the
failing entry, and reporting an error that names it. -/
lemma registerServices_spec (f : String → Option String) (pre : List ServiceDef)
    (bad : ServiceDef) (post : List ServiceDef) (err : String)
    (hpre : ∀ s ∈ pre, f s.Name = none) (hbad : f bad.Name = some err) :
    (registerServices f (pre ++ bad :: post)).1 = some bad.Name ∧
    (registerServices f (pre ++ bad :: post)).2 =
      (pre.map fun s => Event.addService s.Name)
        ++ [Event.addService bad.Name,
            Event.uiError ("Failed to register service \x27" ++ bad.Name ++ "\x27: " ++ err)] := by
  induction pre with
  | nil =>
      unfold registerServices
      simp [hbad]
  | cons s rest ih =>
      have hsn : f s.Name = none := hpre s (by simp)
      have h := ih (fun x hx => hpre x (by simp [hx]))
      constructor
      · simp only [List.cons_append, registerServices, hsn, List.append_eq]
        exact h.1
      · simp only [List.cons_append, registerServices, hsn, List.append_eq]
        rw [h.2]
        simp

/-- C3: service registration is fail-fast: the first failing descriptor
makes the orchestration return one with an error naming that service,
the AddService calls are exactly the prefix plus the failing one (no
later service is attempted and none is rolled back), and no check is
registered. -/
theorem service_registration_fail_fast (env : Env) (config : Config)
    (rpc http : Bool) (pre : List ServiceDef) (bad : ServiceDef)
    (post : List ServiceDef) (err : String)
    (hlw : env.logWriterOk = true)
    (ht : TelemetryOk env config)
    (hs : env.setup = SetupOutcome.ok rpc http)
    (hjoin : (startupJoin env.reachable config).1 = none)
    (hsvcs : config.Services = pre ++ bad :: post)
    (hpre : ∀ s ∈ pre, env.addService s.Name = none)
    (hbad : env.addService bad.Name = some err) :
    (runAfterConfig env config []).1 = 1 ∧
    ((runAfterConfig env config []).2).filter Event.isAddService =
      (pre.map fun s => Event.addService s.Name) ++ [Event.addService bad.Name] ∧
    ((runAfterConfig env config []).2).filter Event.isAddCheck = [] ∧
    Event.uiError ("Failed to register service \x27" ++ bad.Name ++ "\x27: " ++ err)
      ∈ (runAfterConfig env config []).2 := by
  have hsv := registerServices_spec env.addService pre bad post err hpre hbad
  have h1 : (registerServices env.addService config.Services).1 = some bad.Name := by
    rw [hsvcs]; exact hsv.1
  have h2 : (registerServices env.addService config.Services).2 =
      (pre.map fun s => Event.addService s.Name)
        ++ [Event.addService bad.Name,
            Event.uiError ("Failed to register service \x27" ++ bad.Name ++ "\x27: " ++ err)] := by
    rw [hsvcs]; exact hsv.2
  obtain ⟨b, hb⟩ := runAfterConfig_telemetry_ok env config hlw ht
  rw [hb]
  have hsa1 : (setupAgent env).1 = some ⟨rpc, http⟩ := by
    unfold setupAgent; rw [hs]
  simp only [runAgentPhase, hsa1]
  simp only [runAfterSetup, hjoin]
  simp only [runAfterJoin, h1]
  refine ⟨by trivial, ?_, ?_, ?_⟩
  · rw [h2]
    simp [List.filter_append,
      warnEvents_filter Event.isAddService (fun _ => rfl) env,
      setupAgent_filter Event.isAddService (fun _ => rfl) (fun _ _ => rfl) env,
      startupJoin_filter Event.isAddService (fun _ => rfl) env.reachable config,
      deferSeq_filter_nil Event.isAddService (fun _ _ => rfl) env,
      filter_map_eq_self Event.isAddService
        (fun s : ServiceDef => Event.addService s.Name) (fun _ => rfl) pre,
      Event.isAddService]
  · rw [List.filter_append, List.filter_append, List.filter_append,
      List.filter_append, List.filter_append]
    rw [warnEvents_filter Event.isAddCheck (fun _ => rfl) env,
      setupAgent_filter Event.isAddCheck (fun _ => rfl) (fun _ _ => rfl) env,
      startupJoin_filter Event.isAddCheck (fun _ => rfl) env.reachable config,
      registerServices_filter Event.isAddCheck (fun _ => rfl) (fun _ => rfl)
        env.addService config.Services,
      deferSeq_filter_nil Event.isAddCheck (fun _ _ => rfl) env]
    simp [Event.isAddCheck]
  · rw [h2]
    simp

/-- Witness for C3 at a concrete input. -/
theorem service_registration_fail_fast_witness :
    (runAfterConfig
      { env0 with addService := fun n => if n = "svcB" then some "boom" else none }
      { DefaultConfig with Services := [⟨"svcA"⟩, ⟨"svcB"⟩, ⟨"svcC"⟩] } []).1 = 1 ∧
    ((runAfterConfig
      { env0 with addService := fun n => if n = "svcB" then some "boom" else none }
      { DefaultConfig with Services := [⟨"svcA"⟩, ⟨"svcB"⟩, ⟨"svcC"⟩] } []).2).filter
        Event.isAddService =
      [Event.addService "svcA", Event.addService "svcB"] ∧
    Event.uiError ("Failed to register service \x27" ++ "svcB" ++ "\x27: " ++ "boom")
      ∈ (runAfterConfig
        { env0 with addService := fun n => if n = "svcB" then some "boom" else none }
        { DefaultConfig with Services := [⟨"svcA"⟩, ⟨"svcB"⟩, ⟨"svcC"⟩] } []).2 := by
  have h := service_registration_fail_fast
    { env0 with addService := fun n => if n = "svcB" then some "boom" else none }
    { DefaultConfig with Services := [⟨"svcA"⟩, ⟨"svcB"⟩, ⟨"svcC"⟩] }
    true true [⟨"svcA"⟩] ⟨"svcB"⟩ [⟨"svcC"⟩] "boom"
    rfl (Or.inl rfl) rfl rfl (by decide) (by decide) (by decide)
  exact ⟨h.1, by rw [h.2.1]; rfl, h.2.2.2⟩

/-- C5: with no statsite address the fan-out sink is never constructed
and hostname tagging is disabled (the one metrics installation event in
the whole trace carries fanout false and hostname tagging false); with
an address whose connector fails the orchestration reports the failure
and returns one before any subsystem is started or shut down. -/
theorem telemetry_wiring_policy (env : Env) (config : Config) (err : String)
    (hlw : env.logWriterOk = true) :
    (config.StatsiteAddr = "" →
      ((runAfterConfig env config []).2).filter Event.isNewGlobal =
        [Event.newGlobal false false]) ∧
    (config.StatsiteAddr ≠ "" → env.statsite config.StatsiteAddr = some err →
      (runAfterConfig env config []).1 = 1 ∧
      Event.uiError ("Failed to start statsite sink. Got: " ++ err)
        ∈ (runAfterConfig env config []).2 ∧
      ((runAfterConfig env config []).2).filter Event.isSubsysStart = [] ∧
      ((runAfterConfig env config []).2).filter Event.isShutdown = []) := by
  constructor
  · intro ha
    have hb : runAfterConfig env config [] =
        runAgentPhase env config (warnEvents env ++ [Event.newGlobal false false]) := by
      unfold runAfterConfig
      simp [hlw, ha]
    rw [hb]
    rw [runAgentPhase_filter Event.isNewGlobal (fun _ => rfl) (fun _ => rfl)
      (fun _ _ => rfl) (fun _ => rfl) (fun _ => rfl) (fun _ => rfl) rfl
      (fun _ => rfl) (fun _ => rfl) rfl env config _]
    simp [List.filter_append,
      warnEvents_filter Event.isNewGlobal (fun _ => rfl) env, Event.isNewGlobal]
  · intro ha hstat
    have hb : runAfterConfig env config [] =
        (1, warnEvents env
          ++ [Event.uiError ("Failed to start statsite sink. Got: " ++ err)]) := by
      unfold runAfterConfig
      simp [hlw, ha, hstat]
    rw [hb]
    refine ⟨rfl, ?_, ?_, ?_⟩
    · simp
    · simp [List.filter_append,
        warnEvents_filter Event.isSubsysStart (fun _ => rfl) env, Event.isSubsysStart]
    · simp [List.filter_append,
        warnEvents_filter Event.isShutdown (fun _ => rfl) env, Event.isShutdown]

/-- Witness for C5 at concrete inputs. -/
theorem telemetry_wiring_policy_witness :
    ((runAfterConfig env0 DefaultConfig []).2).filter Event.isNewGlobal =
      [Event.newGlobal false false] ∧
    (runAfterConfig { env0 with statsite := fun _ => some "refused" }
      { DefaultConfig with StatsiteAddr := "10.0.0.9:8125" } []).1 = 1 ∧
    Event.uiError ("Failed to start statsite sink. Got: " ++ "refused")
      ∈ (runAfterConfig { env0 with statsite := fun _ => some "refused" }
        { DefaultConfig with StatsiteAddr := "10.0.0.9:8125" } []).2 := by
  have ha := telemetry_wiring_policy env0 DefaultConfig "refused" rfl
  have hb := telemetry_wiring_policy
    { env0 with statsite := fun _ => some "refused" }
    { DefaultConfig with StatsiteAddr := "10.0.0.9:8125" } "refused" rfl
  exact ⟨ha.1 rfl, (hb.2 (by decide) rfl).1, (hb.2 (by decide) rfl).2.1⟩
